import Mathlib

/-
Verification of the tool-call mediation core of the MCP chat client
(src/client.py): the per-query pipeline `process_query` and the
interactive `chat_loop`, modelled as pure functions over explicit
collaborator interfaces.

Modelling conventions:
  * Python exceptions of a collaborator are modelled as `Except String`
    results, the `String` being `str(e)`.
  * `process_query` returns its result together with a trace of the
    calls it issued to the transport and the model endpoint, so that
    statements of the form "the call is (not) issued" are expressible.
  * Apostrophes in string literals are written with the escape \x27.
-/

set_option autoImplicit false

namespace MCPClient

/-- A JSON-like document, used for tool input schemas and decoded tool
arguments (the values `json.loads` can produce). -/
inductive JsonDoc where
  | obj (fields : List (String × JsonDoc))
  | arr (items : List JsonDoc)
  | str (s : String)
  | num (n : Int)
  | bool (b : Bool)
  | null

/-- The dictionary `tool.model_dump()` produces for one MCP tool
(client.py line 122): the keys "name", "description" and "inputSchema"
may each be absent (`Option.none`). -/
structure ToolDescriptor where
  name : Option String
  description : Option String
  inputSchema : Option JsonDoc

/-- The Ollama function-calling spec built per tool
(client.py lines 124-131). -/
structure FunctionSpec where
  type : String
  name : String
  description : String
  parameters : JsonDoc

/-- Tool Schema Adapter: the per-tool conversion in `process_query`
(client.py lines 121-132): `tool_dict.get("name", "")`,
`tool_dict.get("description", "")`, `tool_dict.get("inputSchema", {})`. -/
def adaptTool (t : ToolDescriptor) : FunctionSpec :=
  { type := "function"
  , name := t.name.getD ""
  , description := t.description.getD ""
  , parameters := t.inputSchema.getD (JsonDoc.obj []) }

/-- `tools if tools else None` (client.py line 142): an empty list of
function specs is passed to the model endpoint as `None`. -/
def toolsIfNonempty (l : List FunctionSpec) : Option (List FunctionSpec) :=
  match l with
  | [] => Option.none
  | _ => some l

/-- The raw `arguments` value of one tool call in the model reply
(client.py line 157): a JSON-encoded string, an already-structured
mapping, or any other Python value (`other`). -/
inductive RawArgs where
  | str (s : String)
  | dict (m : List (String × JsonDoc))
  | other

/-- The `function` sub-dictionary of one tool call in the model reply;
each key may be absent. -/
structure FunctionPayload where
  name : Option String
  arguments : Option RawArgs

/-- One entry of `message.get("tool_calls", [])`; the "function" key may
be absent. -/
structure ToolCallPayload where
  function : Option FunctionPayload

/-- `tool_call.get("function", {})` (client.py line 155). -/
def tcFunction (tc : ToolCallPayload) : FunctionPayload :=
  tc.function.getD { name := Option.none, arguments := Option.none }

/-- `function.get("name", "")` (client.py line 156). -/
def tcFunctionName (tc : ToolCallPayload) : String :=
  (tcFunction tc).name.getD ""

/-- `function.get("arguments", {})` (client.py line 157). -/
def tcRawArgs (tc : ToolCallPayload) : RawArgs :=
  (tcFunction tc).arguments.getD (RawArgs.dict [])

/-- Argument normalization (client.py lines 160-166).  `jsonLoads`
stands for the standard library `json.loads` restricted to string
input: `Option.none` models a raised `json.JSONDecodeError`.  A textual
argument is decoded, a failed decode degrades to the empty mapping, a
mapping is kept as-is, and any other shape degrades to the empty
mapping. -/
def normalizeArgs (jsonLoads : String → Option JsonDoc) : RawArgs → JsonDoc
  | RawArgs.str s =>
      match jsonLoads s with
      | some v => v
      | Option.none => JsonDoc.obj []
  | RawArgs.dict m => JsonDoc.obj m
  | RawArgs.other => JsonDoc.obj []

/-- One element of an iterable tool-result content, with its `text`
attribute (client.py line 173). -/
structure ContentItem where
  text : String

/-- The `content` attribute of a tool result: either an iterable of
items that carry a `text` attribute, or a non-iterable value; each
carries its `str(...)` rendering. -/
inductive ContentVal where
  | iter (items : List ContentItem) (strRepr : String)
  | nonIter (strRepr : String)

/-- The payload returned by `session.call_tool`: the `content`
attribute may be absent (`Option.none` models `hasattr` being false);
`strRepr` is `str(tool_result)`. -/
structure ToolResult where
  content : Option ContentVal
  strRepr : String

/-- Result-text extraction on a successful tool call
(client.py lines 172-175): prefer the `content` attribute; a non-empty
iterable contributes its first element's `text`; an empty iterable or a
non-iterable content is stringified (`str(tool_result.content)`); a
result without `content` is stringified whole (`str(tool_result)`). -/
def extractResultText (r : ToolResult) : String :=
  match r.content with
  | some (ContentVal.iter [] s) => s
  | some (ContentVal.iter (i :: _) _) => i.text
  | some (ContentVal.nonIter s) => s
  | Option.none => r.strRepr

/-- Status of one tool-call outcome: which branch of the
`try`/`except` around `session.call_tool` produced the text
(client.py lines 169-178). -/
inductive OutcomeStatus where
  | success
  | error
  deriving DecidableEq

/-- One tool-call outcome: the function name, the branch that produced
it, and the text line appended to `tool_responses`. -/
structure ToolCallOutcome where
  function_name : String
  status : OutcomeStatus
  text : String

/-- One observable call issued to a collaborator. -/
inductive CallEvent where
  | listToolsCall
  | chatCall (query : String) (tools : Option (List FunctionSpec))
  | toolCall (name : String) (args : JsonDoc)

/-- Whether an event is a transport tool call. -/
def isToolCallEvent : CallEvent → Bool
  | CallEvent.toolCall _ _ => true
  | _ => false

/-- `response.get("message", {})` content: the "content" and
"tool_calls" keys may each be absent. -/
structure ChatMessage where
  content : Option String
  tool_calls : Option (List ToolCallPayload)

/-- The Ollama chat response; the "message" key may be absent. -/
structure ChatResponse where
  message : Option ChatMessage

/-- `response.get("message", {})` (client.py line 146). -/
def messageOf (resp : ChatResponse) : ChatMessage :=
  resp.message.getD { content := Option.none, tool_calls := Option.none }

/-- `message.get("content", "")` (client.py line 147). -/
def contentOf (resp : ChatResponse) : String :=
  (messageOf resp).content.getD ""

/-- `message.get("tool_calls", [])` (client.py line 150). -/
def toolCallsOf (resp : ChatResponse) : List ToolCallPayload :=
  (messageOf resp).tool_calls.getD []

/-- The collaborators of `process_query`: `json.loads`,
`session.list_tools`, `ollama.chat` (given the user query and the tools
argument) and `session.call_tool`.  An `Except.error` models a raised
exception carrying `str(e)`. -/
structure Env where
  jsonLoads : String → Option JsonDoc
  list_tools : Except String (List ToolDescriptor)
  chat : String → Option (List FunctionSpec) → Except String ChatResponse
  call_tool : String → JsonDoc → Except String ToolResult

/-- Tool Invoker: the per-tool-call body of `process_query`
(client.py lines 154-178).  Normalizes the raw arguments, issues the
transport call, and renders success or failure as one outcome line; the
trace records the single transport call issued. -/
def handleToolCall (env : Env) (tc : ToolCallPayload) :
    ToolCallOutcome × List CallEvent :=
  let function_name := tcFunctionName tc
  let function_args := normalizeArgs env.jsonLoads (tcRawArgs tc)
  match env.call_tool function_name function_args with
  | Except.ok tool_result =>
      ({ function_name := function_name
       , status := OutcomeStatus.success
       , text := "Tool \x27" ++ function_name ++ "\x27 result: " ++
           extractResultText tool_result },
       [CallEvent.toolCall function_name function_args])
  | Except.error e =>
      ({ function_name := function_name
       , status := OutcomeStatus.error
       , text := "Error calling tool \x27" ++ function_name ++ "\x27: " ++ e },
       [CallEvent.toolCall function_name function_args])

/-- The outcome list a model reply's tool calls produce, in call order
(the `tool_responses` accumulation of client.py lines 153-178, one
append per iteration). -/
def toolOutcomes (env : Env) (tcs : List ToolCallPayload) : List ToolCallOutcome :=
  tcs.map (fun tc => (handleToolCall env tc).1)

/-- Python's `"\n".join` (client.py line 181). -/
def joinLines : List String → String
  | [] => ""
  | [x] => x
  | x :: y :: xs => x ++ "\n" ++ joinLines (y :: xs)

/-- The exception value `process_query` can raise: the explicit
`RuntimeError` of the session guard, or a fault propagated from a
collaborator. -/
inductive PyError where
  | runtimeError (msg : String)
  | fault (msg : String)

/-- Response Reconciler (client.py lines 110-183): guard the session,
fetch and adapt the tool list, submit the chat request, run every
requested tool call in order, and compose the final reply text.
Returns the result (or raised error) together with the ordered trace of
collaborator calls issued. -/
def process_query (env : Env) (session : Option Unit) (query : String) :
    Except PyError String × List CallEvent :=
  match session with
  | Option.none =>
      (Except.error (PyError.runtimeError
         "Session is not initialized. Call connect_to_server() first."), [])
  | some _ =>
      match env.list_tools with
      | Except.error e => (Except.error (PyError.fault e), [CallEvent.listToolsCall])
      | Except.ok available_tools =>
          let tools := available_tools.map adaptTool
          let toolsArg := toolsIfNonempty tools
          match env.chat query toolsArg with
          | Except.error e =>
              (Except.error (PyError.fault e),
               [CallEvent.listToolsCall, CallEvent.chatCall query toolsArg])
          | Except.ok response =>
              let content := contentOf response
              let tool_calls := toolCallsOf response
              match tool_calls with
              | [] =>
                  (Except.ok (if content = "" then "" else content),
                   [CallEvent.listToolsCall, CallEvent.chatCall query toolsArg])
              | _ =>
                  let results := tool_calls.map (handleToolCall env)
                  let tool_responses := results.map (fun r => r.1.text)
                  (Except.ok (if content = "" then joinLines tool_responses
                              else joinLines (content :: tool_responses)),
                   [CallEvent.listToolsCall, CallEvent.chatCall query toolsArg] ++
                     (results.map (fun r => r.2)).flatten)

/-- One observable step of the interactive session loop. -/
inductive LoopEvent where
  | procCall (query : String)
  | output (line : String)
  | errorLine (msg : String)

/-- How a run of the session loop ended: `quitExit` models the `break`
on the quit token; `inputsExhausted` marks the end of the modelled
(finite) input stream with the loop still running. -/
inductive LoopExit where
  | quitExit
  | inputsExhausted
  deriving DecidableEq

/-- Python's str.lower restricted to the ASCII range: every character
is lowercased. -/
def pyLower (s : String) : String :=
  String.mk (s.data.map Char.toLower)

/-- Python's str.strip with no argument: leading and trailing
whitespace characters are removed. -/
def pyStrip (s : String) : String :=
  String.mk
    (((s.data.dropWhile Char.isWhitespace).reverse.dropWhile
        Char.isWhitespace).reverse)

/-- Interactive Session Loop (client.py lines 190-201) over a finite
input stream.  Each iteration strips the line, breaks on a
case-insensitive quit token, and otherwise calls `proc` (standing for
`self.process_query`) on the stripped query; an `Except.error` from
`proc` models a raised exception, which the `except` arm reports as an
error line before the loop continues. -/
def chat_loop (proc : String → Except String String) :
    List String → List LoopEvent × LoopExit
  | [] => ([], LoopExit.inputsExhausted)
  | line :: rest =>
      let query := pyStrip line
      if pyLower query = "quit" then
        ([], LoopExit.quitExit)
      else
        let next := chat_loop proc rest
        match proc query with
        | Except.ok response =>
            (LoopEvent.procCall query :: LoopEvent.output response :: next.1, next.2)
        | Except.error e =>
            (LoopEvent.procCall query :: LoopEvent.errorLine e :: next.1, next.2)

/-- A `json.loads` model that rejects every input. -/
def noJson : String → Option JsonDoc := fun _ => Option.none

/-- A concrete tool-call payload whose raw arguments are invalid JSON
text. -/
def sampleCall : ToolCallPayload :=
  { function := some { name := some "get_leave_balance"
                     , arguments := some (RawArgs.str "not json") } }

/-- A concrete successful tool result with a one-element content list. -/
def sampleResult : ToolResult :=
  { content := some (ContentVal.iter
      [{ text := "E001 has 18 leave days remaining." }] "[content]")
  , strRepr := "res" }

/-- A concrete one-tool descriptor list. -/
def sampleTools : List ToolDescriptor :=
  [{ name := some "get_leave_balance"
   , description := some "Get leave balance"
   , inputSchema := Option.none }]

/-- A concrete model reply with text content and one tool call. -/
def sampleResp : ChatResponse :=
  { message := some { content := some "Checking leave balance..."
                    , tool_calls := some [sampleCall] } }

/-- Collaborators for which every call succeeds. -/
def okEnv : Env :=
  { jsonLoads := noJson
  , list_tools := Except.ok sampleTools
  , chat := fun _ _ => Except.ok sampleResp
  , call_tool := fun _ _ => Except.ok sampleResult }

/-- Collaborators whose transport tool call always raises. -/
def toolFailEnv : Env :=
  { okEnv with call_tool := fun _ _ => Except.error "Tool execution failed" }

/-- Collaborators whose tool listing always raises. -/
def listFailEnv : Env :=
  { okEnv with list_tools := Except.error "transport down" }

/-- Collaborators whose model endpoint always raises. -/
def chatFailEnv : Env :=
  { okEnv with chat := fun _ _ => Except.error "model unreachable" }

/-- A reconciler model that always raises. -/
def procFail : String → Except String String :=
  fun _ => Except.error "boom"

/-- A reconciler model that always answers. -/
def procOk : String → Except String String :=
  fun q => Except.ok ("answer to " ++ q)

/-- Helper: a string append with a non-empty left part is non-empty. -/
theorem append_ne_empty_left (a b : String) (h : a ≠ "") : a ++ b ≠ "" := by
  intro hc
  apply h
  have hd : (a ++ b).data = ("" : String).data := congrArg String.data hc
  rw [String.data_append] at hd
  have ha : a.data = [] := (List.append_eq_nil.mp hd).1
  exact String.ext (ha.trans rfl)

/-- Helper: joining lines starting with a non-empty line is non-empty. -/
theorem joinLines_cons_ne (x : String) (xs : List String) (hx : x ≠ "") :
    joinLines (x :: xs) ≠ "" := by
  cases xs with
  | nil => simpa [joinLines] using hx
  | cons y ys =>
      show x ++ "\n" ++ joinLines (y :: ys) ≠ ""
      exact append_ne_empty_left _ _ (append_ne_empty_left _ _ hx)

/-- Helper: the Tool Invoker issues exactly one transport call, with the
normalized arguments, on both the success and the failure path. -/
theorem handleToolCall_trace (env : Env) (tc : ToolCallPayload) :
    (handleToolCall env tc).2 =
      [CallEvent.toolCall (tcFunctionName tc)
        (normalizeArgs env.jsonLoads (tcRawArgs tc))] := by
  simp only [handleToolCall]
  cases hc : env.call_tool (tcFunctionName tc)
      (normalizeArgs env.jsonLoads (tcRawArgs tc)) <;> rfl

/-- Helper: every tool-call outcome line is a non-empty string. -/
theorem handleToolCall_text_ne (env : Env) (tc : ToolCallPayload) :
    (handleToolCall env tc).1.text ≠ "" := by
  have h7 : ("Tool \x27" : String) ≠ "" := by decide
  have h8 : ("Error calling tool \x27" : String) ≠ "" := by decide
  simp only [handleToolCall]
  cases hc : env.call_tool (tcFunctionName tc)
      (normalizeArgs env.jsonLoads (tcRawArgs tc)) with
  | ok r =>
      exact append_ne_empty_left _ _ (append_ne_empty_left _ _
        (append_ne_empty_left _ _ h7))
  | error e =>
      exact append_ne_empty_left _ _ (append_ne_empty_left _ _
        (append_ne_empty_left _ _ h8))

/-- C10: calling process_query with no initialized session raises the
RuntimeError "Session is not initialized. Call connect_to_server()
first." and issues no collaborator call at all (empty trace), for every
environment and query. -/
theorem process_query_requires_session (env : Env) (query : String) :
    process_query env Option.none query =
      (Except.error (PyError.runtimeError
         "Session is not initialized. Call connect_to_server() first."), []) := rfl

/-- C9: the Tool Schema Adapter is total and produces a FunctionSpec
with type "function"; a missing name or description defaults to the
empty string, and a missing input schema defaults to the empty object
document. -/
theorem adaptTool_defaults (t : ToolDescriptor) :
    (adaptTool t).type = "function" ∧
    (t.name = Option.none → (adaptTool t).name = "") ∧
    (t.description = Option.none → (adaptTool t).description = "") ∧
    (t.inputSchema = Option.none → (adaptTool t).parameters = JsonDoc.obj []) := by
  refine ⟨rfl, ?_, ?_, ?_⟩ <;> intro h <;> simp [adaptTool, h]

/-- Witness for C9 at a descriptor with all three fields missing. -/
theorem adaptTool_defaults_witness :
    (adaptTool { name := Option.none, description := Option.none,
                 inputSchema := Option.none }).type = "function" ∧
    (adaptTool { name := Option.none, description := Option.none,
                 inputSchema := Option.none }).name = "" ∧
    (adaptTool { name := Option.none, description := Option.none,
                 inputSchema := Option.none }).description = "" ∧
    (adaptTool { name := Option.none, description := Option.none,
                 inputSchema := Option.none }).parameters = JsonDoc.obj [] :=
  have h := adaptTool_defaults
    { name := Option.none, description := Option.none, inputSchema := Option.none }
  ⟨h.1, h.2.1 rfl, h.2.2.1 rfl, h.2.2.2 rfl⟩

/-- C1: when the transport call raises, the Tool Invoker yields an
outcome with status error whose text is "Error calling tool
NAME: MESSAGE" (with the name in single quotes), and such faults never
propagate: whenever the tool listing and the model call succeed,
process_query returns normally whatever the transport does on tool
calls. -/
theorem toolInvoker_absorbs_transport_faults :
    (∀ (env : Env) (tc : ToolCallPayload) (e : String),
        env.call_tool (tcFunctionName tc)
          (normalizeArgs env.jsonLoads (tcRawArgs tc)) = Except.error e →
        (handleToolCall env tc).1.status = OutcomeStatus.error ∧
        (handleToolCall env tc).1.text =
          "Error calling tool \x27" ++ tcFunctionName tc ++ "\x27: " ++ e) ∧
    (∀ (env : Env) (query : String) (ts : List ToolDescriptor) (resp : ChatResponse),
        env.list_tools = Except.ok ts →
        env.chat query (toolsIfNonempty (ts.map adaptTool)) = Except.ok resp →
        ∃ s : String, (process_query env (some ()) query).1 = Except.ok s) := by
  constructor
  · intro env tc e h
    constructor <;> simp [handleToolCall, h]
  · intro env query ts resp h1 h2
    simp only [process_query, h1, h2]
    cases toolCallsOf resp <;> simp

/-- Witness for C1 with a transport that raises "Tool execution
failed". -/
theorem toolInvoker_absorbs_transport_faults_witness :
    ((handleToolCall toolFailEnv sampleCall).1.status = OutcomeStatus.error ∧
     (handleToolCall toolFailEnv sampleCall).1.text =
       "Error calling tool \x27" ++ tcFunctionName sampleCall ++ "\x27: " ++
         "Tool execution failed") ∧
    (∃ s : String, (process_query toolFailEnv (some ()) "q").1 = Except.ok s) :=
  ⟨toolInvoker_absorbs_transport_faults.1 toolFailEnv sampleCall
     "Tool execution failed" rfl,
   toolInvoker_absorbs_transport_faults.2 toolFailEnv "q" sampleTools sampleResp
     rfl rfl⟩

/-- C2: argument normalization is total: textual raw arguments are
decoded and a failed decode degrades to the empty mapping while the
transport call is still issued (the trace holds exactly the call, with
empty arguments); a mapping is used as-is; any other shape degrades to
the empty mapping. -/
theorem normalizeArgs_total :
    (∀ (env : Env) (tc : ToolCallPayload) (s : String),
        tcRawArgs tc = RawArgs.str s →
        env.jsonLoads s = Option.none →
        (handleToolCall env tc).2 =
          [CallEvent.toolCall (tcFunctionName tc) (JsonDoc.obj [])]) ∧
    (∀ (jsonLoads : String → Option JsonDoc) (m : List (String × JsonDoc)),
        normalizeArgs jsonLoads (RawArgs.dict m) = JsonDoc.obj m) ∧
    (∀ jsonLoads : String → Option JsonDoc,
        normalizeArgs jsonLoads RawArgs.other = JsonDoc.obj []) := by
  refine ⟨?_, fun _ _ => rfl, fun _ => rfl⟩
  intro env tc s hraw hdec
  rw [handleToolCall_trace, hraw]
  simp [normalizeArgs, hdec]

/-- Witness for C2 at invalid JSON argument text. -/
theorem normalizeArgs_total_witness :
    (handleToolCall toolFailEnv sampleCall).2 =
      [CallEvent.toolCall (tcFunctionName sampleCall) (JsonDoc.obj [])] ∧
    normalizeArgs noJson (RawArgs.dict [("k", JsonDoc.num 1)]) =
      JsonDoc.obj [("k", JsonDoc.num 1)] ∧
    normalizeArgs noJson RawArgs.other = JsonDoc.obj [] :=
  ⟨normalizeArgs_total.1 toolFailEnv sampleCall "not json" rfl rfl,
   normalizeArgs_total.2.1 noJson [("k", JsonDoc.num 1)],
   normalizeArgs_total.2.2 noJson⟩

/-- C8: a fault of the tool listing, or of the model-endpoint call,
propagates out of process_query unchanged (it is not caught inside the
Reconciler), unlike per-tool-call faults, which are absorbed into a
normal return. -/
theorem session_level_faults_propagate :
    (∀ (env : Env) (query e : String),
        env.list_tools = Except.error e →
        (process_query env (some ()) query).1 = Except.error (PyError.fault e)) ∧
    (∀ (env : Env) (query e : String) (ts : List ToolDescriptor),
        env.list_tools = Except.ok ts →
        env.chat query (toolsIfNonempty (ts.map adaptTool)) = Except.error e →
        (process_query env (some ()) query).1 = Except.error (PyError.fault e)) ∧
    (∀ (env : Env) (query : String) (ts : List ToolDescriptor) (resp : ChatResponse),
        env.list_tools = Except.ok ts →
        env.chat query (toolsIfNonempty (ts.map adaptTool)) = Except.ok resp →
        ∀ e : PyError, (process_query env (some ()) query).1 ≠ Except.error e) := by
  refine ⟨?_, ?_, ?_⟩
  · intro env query e h
    simp [process_query, h]
  · intro env query e ts h1 h2
    simp [process_query, h1, h2]
  · intro env query ts resp h1 h2 e
    simp only [process_query, h1, h2]
    cases toolCallsOf resp <;> simp

/-- Witness for C8 with a failing tool listing, a failing model call,
and an absorbed tool-call fault. -/
theorem session_level_faults_propagate_witness :
    (process_query listFailEnv (some ()) "q").1 =
      Except.error (PyError.fault "transport down") ∧
    (process_query chatFailEnv (some ()) "q").1 =
      Except.error (PyError.fault "model unreachable") ∧
    ∀ e : PyError, (process_query toolFailEnv (some ()) "q").1 ≠ Except.error e :=
  ⟨session_level_faults_propagate.1 listFailEnv "q" "transport down" rfl,
   session_level_faults_propagate.2.1 chatFailEnv "q" "model unreachable"
     sampleTools rfl rfl,
   session_level_faults_propagate.2.2 toolFailEnv "q" sampleTools sampleResp
     rfl rfl⟩

/-- C4: on a successful tool invocation the outcome is the extracted
result text wrapped as "Tool NAME result: TEXT" (with the name in
single quotes), where extraction prefers the content field, takes the
first element's text of a non-empty sequence, and stringifies the
content (or, without a content field, the whole payload) otherwise. -/
theorem result_extraction (env : Env) (tc : ToolCallPayload) (r : ToolResult)
    (hcall : env.call_tool (tcFunctionName tc)
      (normalizeArgs env.jsonLoads (tcRawArgs tc)) = Except.ok r) :
    (handleToolCall env tc).1.status = OutcomeStatus.success ∧
    (handleToolCall env tc).1.text =
      "Tool \x27" ++ tcFunctionName tc ++ "\x27 result: " ++ extractResultText r ∧
    (∀ (i : ContentItem) (rest : List ContentItem) (s : String),
        r.content = some (ContentVal.iter (i :: rest) s) →
        extractResultText r = i.text) ∧
    (∀ s : String, r.content = some (ContentVal.iter [] s) →
        extractResultText r = s) ∧
    (∀ s : String, r.content = some (ContentVal.nonIter s) →
        extractResultText r = s) ∧
    (r.content = Option.none → extractResultText r = r.strRepr) := by
  refine ⟨?_, ?_, ?_, ?_, ?_, ?_⟩
  · simp [handleToolCall, hcall]
  · simp [handleToolCall, hcall]
  · intro i rest s h
    simp [extractResultText, h]
  · intro s h
    simp [extractResultText, h]
  · intro s h
    simp [extractResultText, h]
  · intro h
    simp [extractResultText, h]

/-- Witness for C4 at a successful call whose result content holds one
text item. -/
theorem result_extraction_witness :
    (handleToolCall okEnv sampleCall).1.status = OutcomeStatus.success ∧
    (handleToolCall okEnv sampleCall).1.text =
      "Tool \x27" ++ tcFunctionName sampleCall ++ "\x27 result: " ++
        extractResultText sampleResult ∧
    extractResultText sampleResult = "E001 has 18 leave days remaining." :=
  have h := result_extraction okEnv sampleCall sampleResult rfl
  ⟨h.1, h.2.1,
   h.2.2.1 { text := "E001 has 18 leave days remaining." } [] "[content]" rfl⟩

/-- Helper: the flattened per-call traces are one transport call per
requested tool call, in order. -/
theorem toolTraces_flatten (env : Env) (l : List ToolCallPayload) :
    (l.map (fun tc => (handleToolCall env tc).2)).flatten =
      l.map (fun tc => CallEvent.toolCall (tcFunctionName tc)
        (normalizeArgs env.jsonLoads (tcRawArgs tc))) := by
  induction l with
  | nil => rfl
  | cons tc rest ih =>
      rw [List.map_cons, List.flatten_cons, ih, handleToolCall_trace]
      rfl

/-- Helper: the flattened per-call traces hold exactly one transport
call per requested tool call. -/
theorem toolTraces_filter_length (env : Env) (l : List ToolCallPayload) :
    (((l.map (fun tc => (handleToolCall env tc).2)).flatten).filter
        isToolCallEvent).length = l.length := by
  rw [toolTraces_flatten]
  induction l with
  | nil => rfl
  | cons tc rest ih => simpa [isToolCallEvent] using ih

/-- C5: a model reply with N requested tool calls yields exactly N
tool-call outcomes, and exactly N transport calls are issued, whether
the individual calls succeed or fault. -/
theorem one_outcome_per_request (env : Env) (query : String)
    (ts : List ToolDescriptor) (resp : ChatResponse) (tcs : List ToolCallPayload)
    (h1 : env.list_tools = Except.ok ts)
    (h2 : env.chat query (toolsIfNonempty (ts.map adaptTool)) = Except.ok resp)
    (h3 : toolCallsOf resp = tcs) :
    (toolOutcomes env tcs).length = tcs.length ∧
    ((process_query env (some ()) query).2.filter
        isToolCallEvent).length = tcs.length := by
  constructor
  · simp [toolOutcomes]
  · simp only [process_query, h1, h2, h3]
    cases tcs with
    | nil => rfl
    | cons a l =>
        simp only [List.filter_append, List.length_append, List.map_map]
        rw [show ((fun r : ToolCallOutcome × List CallEvent => r.2) ∘
              handleToolCall env) = fun tc => (handleToolCall env tc).2 from rfl]
        rw [toolTraces_filter_length]
        simp [isToolCallEvent]

/-- Witness for C5 at a reply with one tool call against a faulting
transport. -/
theorem one_outcome_per_request_witness :
    (toolOutcomes toolFailEnv [sampleCall]).length = 1 ∧
    ((process_query toolFailEnv (some ()) "q").2.filter
        isToolCallEvent).length = 1 :=
  one_outcome_per_request toolFailEnv "q" sampleTools sampleResp [sampleCall]
    rfl rfl rfl

/-- C3: the final reply is the model content followed by the outcome
lines in call order when the content is non-empty, just the outcome
lines when the content is empty, and it is the empty string exactly
when the content is empty and no tool call was requested. -/
theorem reply_composition (env : Env) (query : String)
    (ts : List ToolDescriptor) (resp : ChatResponse)
    (h1 : env.list_tools = Except.ok ts)
    (h2 : env.chat query (toolsIfNonempty (ts.map adaptTool)) = Except.ok resp) :
    (contentOf resp ≠ "" →
      (process_query env (some ()) query).1 = Except.ok (joinLines
        (contentOf resp ::
          (toolOutcomes env (toolCallsOf resp)).map (fun o => o.text)))) ∧
    (contentOf resp = "" →
      (process_query env (some ()) query).1 = Except.ok (joinLines
        ((toolOutcomes env (toolCallsOf resp)).map (fun o => o.text)))) ∧
    ((process_query env (some ()) query).1 = Except.ok "" ↔
      (contentOf resp = "" ∧ toolCallsOf resp = [])) := by
  refine ⟨?_, ?_, ?_⟩
  · intro hc
    simp only [process_query, h1, h2]
    cases htc : toolCallsOf resp with
    | nil => simp [hc, joinLines, toolOutcomes]
    | cons a l =>
        simp [hc, toolOutcomes, List.map_map, Function.comp_def]
  · intro hc
    simp only [process_query, h1, h2]
    cases htc : toolCallsOf resp with
    | nil => simp [hc, joinLines, toolOutcomes]
    | cons a l =>
        simp [hc, toolOutcomes, List.map_map, Function.comp_def]
  · constructor
    · intro h
      cases htc : toolCallsOf resp with
      | nil =>
          simp only [process_query, h1, h2, htc] at h
          by_cases hc : contentOf resp = ""
          · exact ⟨hc, rfl⟩
          · simp only [if_neg hc, Except.ok.injEq] at h
            exact absurd h hc
      | cons a l =>
          exfalso
          simp only [process_query, h1, h2, htc] at h
          by_cases hc : contentOf resp = ""
          · simp only [hc, if_pos, Except.ok.injEq] at h
            exact joinLines_cons_ne _ _ (handleToolCall_text_ne env a)
              (by simpa using h)
          · simp only [if_neg hc, Except.ok.injEq] at h
            exact joinLines_cons_ne _ _ hc h
    · intro ⟨hc, htc⟩
      simp [process_query, h1, h2, htc, hc]

/-- Witness for C3 at a reply with non-empty content and one successful
tool call. -/
theorem reply_composition_witness :
    (process_query okEnv (some ()) "Check leave balance for E001").1 =
      Except.ok (joinLines ("Checking leave balance..." ::
        (toolOutcomes okEnv (toolCallsOf sampleResp)).map (fun o => o.text))) :=
  (reply_composition okEnv "Check leave balance for E001" sampleTools sampleResp
      rfl rfl).1 (by decide)

/-- C6: a fault raised by the reconciler during an iteration is caught
and reported as an error line and the loop then continues exactly as it
would on the remaining input, and the loop reaches its quit exit if and
only if some input line, trimmed and lowercased, is the quit token. -/
theorem loop_fault_isolated :
    (∀ (proc : String → Except String String) (line : String)
        (rest : List String) (e : String),
        pyLower (pyStrip line) ≠ "quit" →
        proc (pyStrip line) = Except.error e →
        chat_loop proc (line :: rest) =
          (LoopEvent.procCall (pyStrip line) :: LoopEvent.errorLine e ::
             (chat_loop proc rest).1,
           (chat_loop proc rest).2)) ∧
    (∀ (proc : String → Except String String) (inputs : List String),
        (chat_loop proc inputs).2 = LoopExit.quitExit ↔
          ∃ l ∈ inputs, pyLower (pyStrip l) = "quit") := by
  constructor
  · intro proc line rest e hq he
    simp [chat_loop, hq, he]
  · intro proc inputs
    induction inputs with
    | nil => simp [chat_loop]
    | cons line rest ih =>
        by_cases hq : pyLower (pyStrip line) = "quit"
        · simp [chat_loop, hq]
        · cases hp : proc (pyStrip line) with
          | ok r => simp [chat_loop, hq, hp, ih]
          | error e => simp [chat_loop, hq, hp, ih]

/-- Witness for C6: one faulting exchange, then exhaustion; and a quit
line is recognized. -/
theorem loop_fault_isolated_witness :
    chat_loop procFail ["hi"] =
      (LoopEvent.procCall "hi" :: LoopEvent.errorLine "boom" ::
         (chat_loop procFail []).1,
       (chat_loop procFail []).2) ∧
    ((chat_loop procFail ["QUIT"]).2 = LoopExit.quitExit ↔
      ∃ l ∈ ["QUIT"], pyLower (pyStrip l) = "quit") :=
  ⟨loop_fault_isolated.1 procFail "hi" [] "boom" (by decide) rfl,
   loop_fault_isolated.2 procFail ["QUIT"]⟩

/-- C7: a line whose trimmed form is any letter-casing of the quit
token ends the loop at once, with no reconciler call; any other line is
forwarded trimmed to the reconciler and its answer displayed, after
which the loop continues on the remaining input. -/
theorem loop_quit_and_forward :
    (∀ (proc : String → Except String String) (line : String)
        (rest : List String),
        pyLower (pyStrip line) = "quit" →
        chat_loop proc (line :: rest) = ([], LoopExit.quitExit)) ∧
    (∀ (proc : String → Except String String) (line : String)
        (rest : List String) (r : String),
        pyLower (pyStrip line) ≠ "quit" →
        proc (pyStrip line) = Except.ok r →
        chat_loop proc (line :: rest) =
          (LoopEvent.procCall (pyStrip line) :: LoopEvent.output r ::
             (chat_loop proc rest).1,
           (chat_loop proc rest).2)) := by
  constructor
  · intro proc line rest hq
    simp [chat_loop, hq]
  · intro proc line rest r hq hr
    simp [chat_loop, hq, hr]

/-- Witness for C7: a mixed-case quit line ends the loop without any
event, and a whitespace-only line is forwarded as the empty query. -/
theorem loop_quit_and_forward_witness :
    chat_loop procOk ["QuIt", "later"] = ([], LoopExit.quitExit) ∧
    chat_loop procOk ["   "] =
      (LoopEvent.procCall (pyStrip "   ") :: LoopEvent.output "answer to " ::
         (chat_loop procOk []).1,
       (chat_loop procOk []).2) :=
  ⟨loop_quit_and_forward.1 procOk "QuIt" ["later"] (by decide),
   loop_quit_and_forward.2 procOk "   " [] "answer to " (by decide) rfl⟩

end MCPClient
